import Mathlib

/-!
Verification development for the Connect chat application.

The definitions below are a shallow embedding of the repository's code:
the MongoDB-backed models (`MessageModel`, `UserModel`, `GroupModel`),
the Express controllers (`MessageController`, `UserController`,
`GroupController`) and the browser-side sync gateway (`ApiService`).
Collections are lists of documents together with an insertion counter;
MongoDB `ObjectId`s are modelled as nonempty strings derived injectively
from that counter.  JavaScript truthiness on optional string and number
fields is modelled explicitly.
-/

namespace Chat

/-- JavaScript truthiness of an optional string field:
`undefined` and the empty string are falsy. -/
def truthyS : Option String → Bool
  | none => false
  | some s => s ≠ ""

/-- JavaScript truthiness of an optional number field:
`undefined` and `0` are falsy. -/
def truthyN : Option Nat → Bool
  | none => false
  | some n => n ≠ 0

/-- Model of `ObjectId.toString()`: MongoDB object ids are opaque,
pairwise distinct, nonempty hex strings.  We model them as strings
derived from the collection's insertion counter. -/
def oidString (n : Nat) : String := "o" ++ Nat.repr n

/-- Replace the first element satisfying `p` by its image under `f`,
the model of a MongoDB `updateOne`/`findOneAndUpdate` write. -/
def updateFirst {α : Type} (p : α → Bool) (f : α → α) : List α → List α
  | [] => []
  | d :: ds => if p d then f d :: ds else d :: updateFirst p f ds

/-- Message type tag (`'text' | 'image' | 'audio' | 'file'`). -/
inductive MsgType
  | text
  | image
  | audio
  | file
deriving DecidableEq

/-- Message status (`'sent' | 'delivered' | 'read'`). -/
inductive MsgStatus
  | sent
  | delivered
  | read
deriving DecidableEq

/-- A stored message document (collection `messages`). -/
structure MessageDoc where
  docId : Nat
  senderId : String
  receiverId : String
  text : Option String
  imageUrl : Option String
  audioUrl : Option String
  fileUrl : Option String
  fileName : Option String
  fileType : Option String
  type : MsgType
  timestamp : Nat
  status : MsgStatus
  groupId : Option String
deriving DecidableEq

/-- The API-level `Message` object (`_id` converted to `id`). -/
structure Message where
  id : String
  senderId : String
  receiverId : String
  text : Option String
  imageUrl : Option String
  audioUrl : Option String
  fileUrl : Option String
  fileName : Option String
  fileType : Option String
  type : MsgType
  timestamp : Nat
  status : MsgStatus
  groupId : Option String
deriving DecidableEq

/-- The `messages` collection: stored documents plus the id counter. -/
structure MsgStore where
  docs : List MessageDoc
  nextId : Nat
deriving DecidableEq

/-- The duplicate-natural-key predicate on stored documents: matches
`findOne({ senderId, receiverId, timestamp })`, where the queried
`receiverId` comes from the request body and may be absent — an absent
field never matches a stored document (every stored document has its
`receiverId` set). -/
def dupKeyPred (senderId : String) (receiverId : Option String) (timestamp : Nat)
    (d : MessageDoc) : Bool :=
  d.senderId == senderId && some d.receiverId == receiverId && d.timestamp == timestamp

namespace MessageModel

/-- `MessageModel.transformDocument`: convert `_id` to `id`. -/
def transformDocument (d : MessageDoc) : Message :=
  { id := oidString d.docId
    senderId := d.senderId
    receiverId := d.receiverId
    text := d.text
    imageUrl := d.imageUrl
    audioUrl := d.audioUrl
    fileUrl := d.fileUrl
    fileName := d.fileName
    fileType := d.fileType
    type := d.type
    timestamp := d.timestamp
    status := d.status
    groupId := d.groupId }

/-- The data handed to `MessageModel.createMessage` by the controller. -/
structure MsgData where
  senderId : String
  receiverId : String
  text : Option String
  imageUrl : Option String
  audioUrl : Option String
  fileUrl : Option String
  fileName : Option String
  fileType : Option String
  type : MsgType
  timestamp : Nat
  status : MsgStatus
  groupId : Option String

/-- The document `createMessage` inserts: optional payload fields are
copied only when truthy (`if (messageData.text) ...`). -/
def createdDoc (data : MsgData) (st : MsgStore) : MessageDoc :=
  { docId := st.nextId
    senderId := data.senderId
    receiverId := data.receiverId
    text := if truthyS data.text then data.text else none
    imageUrl := if truthyS data.imageUrl then data.imageUrl else none
    audioUrl := if truthyS data.audioUrl then data.audioUrl else none
    fileUrl := if truthyS data.fileUrl then data.fileUrl else none
    fileName := if truthyS data.fileName then data.fileName else none
    fileType := if truthyS data.fileType then data.fileType else none
    type := data.type
    timestamp := data.timestamp
    status := data.status
    groupId := if truthyS data.groupId then data.groupId else none }

/-- `MessageModel.createMessage`: inserts `createdDoc`; the returned
`Message` spreads the raw input data. -/
def createMessage (data : MsgData) (st : MsgStore) : Message × MsgStore :=
  ({ id := oidString st.nextId
     senderId := data.senderId
     receiverId := data.receiverId
     text := data.text
     imageUrl := data.imageUrl
     audioUrl := data.audioUrl
     fileUrl := data.fileUrl
     fileName := data.fileName
     fileType := data.fileType
     type := data.type
     timestamp := data.timestamp
     status := data.status
     groupId := data.groupId },
   { docs := st.docs ++ [createdDoc data st], nextId := st.nextId + 1 })

/-- The bidirectional direct-message filter used by
`getMessagesBetweenUsers`. -/
def msgBetweenFilter (u1 u2 : String) (d : MessageDoc) : Bool :=
  (d.senderId == u1 && d.receiverId == u2) || (d.senderId == u2 && d.receiverId == u1)

/-- Timestamp comparison used for `.sort({ timestamp: 1 })`. -/
def tsLe (a b : MessageDoc) : Bool := a.timestamp ≤ b.timestamp

/-- `MessageModel.getMessagesBetweenUsers`: bidirectional filter, sort
ascending by timestamp, cap at 500, convert documents. -/
def getMessagesBetweenUsers (st : MsgStore) (user1Id user2Id : String) : List Message :=
  ((((st.docs.filter (msgBetweenFilter user1Id user2Id)).mergeSort tsLe).take 500).map
    transformDocument)

/-- `MessageModel.getGroupMessages`: filter by `groupId`, sort, cap. -/
def getGroupMessages (st : MsgStore) (groupId : String) : List Message :=
  ((((st.docs.filter (fun d => d.groupId == some groupId)).mergeSort tsLe).take 500).map
    transformDocument)

/-- `MessageModel.checkDuplicateMessage`: a `findOne` on the exact triple
`(senderId, receiverId, timestamp)`.  The `receiverId` argument comes
straight from the request body and may be absent; an absent field never
matches a stored document (every stored document has `receiverId` set). -/
def checkDuplicateMessage (st : MsgStore) (senderId : String) (receiverId : Option String)
    (timestamp : Nat) : Bool :=
  st.docs.any (dupKeyPred senderId receiverId timestamp)

/-- `MessageModel.updateMessageStatus`: `findOneAndUpdate` setting
`status`, returning the post-update document. -/
def updateMessageStatus (st : MsgStore) (messageId : String) (s : MsgStatus) :
    Option Message × MsgStore :=
  match st.docs.find? (fun d => oidString d.docId == messageId) with
  | none => (none, st)
  | some d =>
    (some (transformDocument { d with status := s }),
     { st with
       docs := updateFirst (fun d => oidString d.docId == messageId)
         (fun x => { x with status := s }) st.docs })

/-- `MessageModel.updateMessageText`: `findOneAndUpdate` setting `text`,
returning the post-update document. -/
def updateMessageText (st : MsgStore) (messageId : String) (newText : String) :
    Option Message × MsgStore :=
  match st.docs.find? (fun d => oidString d.docId == messageId) with
  | none => (none, st)
  | some d =>
    (some (transformDocument { d with text := some newText }),
     { st with
       docs := updateFirst (fun d => oidString d.docId == messageId)
         (fun x => { x with text := some newText }) st.docs })

/-- `MessageModel.deleteAllMessagesFromUser`: `deleteMany` of every
message sent or received by the user. -/
def deleteAllMessagesFromUser (st : MsgStore) (userId : String) : MsgStore :=
  { st with docs := st.docs.filter (fun d => !(d.senderId == userId || d.receiverId == userId)) }

end MessageModel

/-- Parse the request's `type` field
(`type !== 'text' && type !== 'image' && ...`). -/
def parseMsgType : String → Option MsgType
  | "text" => some MsgType.text
  | "image" => some MsgType.image
  | "audio" => some MsgType.audio
  | "file" => some MsgType.file
  | _ => none

/-- Parse the request's `status` field
(`status !== 'sent' && status !== 'delivered' && status !== 'read'`). -/
def parseMsgStatus : String → Option MsgStatus
  | "sent" => some MsgStatus.sent
  | "delivered" => some MsgStatus.delivered
  | "read" => some MsgStatus.read
  | _ => none

namespace MessageController

/-- The JSON body of a `POST /messages` request; every field may be
absent. -/
structure SendReq where
  senderId : Option String
  receiverId : Option String
  text : Option String
  imageUrl : Option String
  audioUrl : Option String
  fileUrl : Option String
  fileName : Option String
  fileType : Option String
  type : Option String
  timestamp : Option Nat
  status : Option MsgStatus
  groupId : Option String

/-- The required-fields check of `sendMessage`:
`!senderId || (!receiverId && !groupId) || !type || !timestamp`. -/
def sendReqMissing (req : SendReq) : Bool :=
  !(truthyS req.senderId) || (!(truthyS req.receiverId) && !(truthyS req.groupId)) ||
    !(truthyS req.type) || !(truthyN req.timestamp)

/-- The per-type content checks of `sendMessage`: the four sequential
guards `type === 'text' && !text`, `type === 'image' && !imageUrl`,
`type === 'audio' && !audioUrl`, `type === 'file' && !fileUrl` (each
answered with a 400) collapse to one check on the parsed type. -/
def sendContentBad (ty : MsgType) (req : SendReq) : Bool :=
  match ty with
  | MsgType.text => !(truthyS req.text)
  | MsgType.image => !(truthyS req.imageUrl)
  | MsgType.audio => !(truthyS req.audioUrl)
  | MsgType.file => !(truthyS req.fileUrl)

/-- The payload `sendMessage` hands to `createMessage`: note
`receiverId: groupId || receiverId` and `status: status || 'sent'`. -/
def sendData (req : SendReq) (ty : MsgType) : MessageModel.MsgData :=
  { senderId := req.senderId.getD ("")
    receiverId := (if truthyS req.groupId then req.groupId else req.receiverId).getD ("")
    text := req.text
    imageUrl := req.imageUrl
    audioUrl := req.audioUrl
    fileUrl := req.fileUrl
    fileName := req.fileName
    fileType := req.fileType
    type := ty
    timestamp := req.timestamp.getD 0
    status := req.status.getD MsgStatus.sent
    groupId := req.groupId }

/-- `MessageController.sendMessage` (`POST /messages`): validation, the
duplicate check on `(senderId, receiverId, timestamp)` (answering 200
without inserting), the banned-sender check (403), then
`createMessage` with `receiverId: groupId || receiverId` (201).
`banned` is the `UserModel.isUserBanned` lookup. -/
def sendMessage (banned : String → Bool) (req : SendReq) (st : MsgStore) :
    (Nat × Option Message) × MsgStore :=
  if sendReqMissing req then ((400, none), st)
  else
    match parseMsgType (req.type.getD ("")) with
    | none => ((400, none), st)
    | some ty =>
      if sendContentBad ty req then ((400, none), st)
      else if MessageModel.checkDuplicateMessage st (req.senderId.getD ("")) req.receiverId
          (req.timestamp.getD 0) then ((200, none), st)
      else if banned (req.senderId.getD ("")) then ((403, none), st)
      else
        let (m, st') := MessageModel.createMessage (sendData req ty) st
        ((201, some m), st')

/-- `MessageController.updateMessageStatus` (`PUT /messages/:id`):
validate the status value, 404 when the message does not exist,
otherwise apply the update unconditionally and answer 200. -/
def updateMessageStatus (msgId : String) (status : Option String) (st : MsgStore) :
    (Nat × Option Message) × MsgStore :=
  if !(truthyS status) then ((400, none), st)
  else
    match parseMsgStatus (status.getD ("")) with
    | none => ((400, none), st)
    | some s =>
      match MessageModel.updateMessageStatus st msgId s with
      | (none, st') => ((404, none), st')
      | (some m, st') => ((200, some m), st')

/-- `MessageController.editMessage` (`PATCH /messages/:id`): validate,
then **first** apply `updateMessageText` and only afterwards compare
the requester to the sender, answering 403 without reverting the
already-applied update. -/
def editMessage (msgId : String) (text userId : Option String) (st : MsgStore) :
    (Nat × Option Message) × MsgStore :=
  if !(truthyS text) || !(truthyS userId) then ((400, none), st)
  else
    match MessageModel.updateMessageText st msgId (text.getD ("")) with
    | (none, st') => ((404, none), st')
    | (some m, st') =>
      if m.senderId ≠ userId.getD ("") then ((403, none), st')
      else ((200, some m), st')

end MessageController

/-- A stored user document (collection `users`). -/
structure UserDoc where
  docId : Nat
  username : String
  email : String
  avatar : String
  status : String
  lastSeen : Nat
  isAdmin : Bool
  isBanned : Bool
deriving DecidableEq

/-- The API-level `User` object. -/
structure User where
  id : String
  username : String
  email : String
  avatar : String
  status : String
  lastSeen : Nat
  isAdmin : Bool
  isBanned : Bool
deriving DecidableEq

/-- The `users` collection. -/
structure UserStore where
  docs : List UserDoc
  nextId : Nat
deriving DecidableEq

namespace UserModel

/-- The hardcoded superuser email. -/
def adminEmail : String := "admin0909@gmail.com"

/-- `UserModel.transformDocument`: `isAdmin` is the stored flag or the
hardcoded well-known email comparison. -/
def transformDocument (d : UserDoc) : User :=
  { id := oidString d.docId
    username := d.username
    email := d.email
    avatar := d.avatar
    status := d.status
    lastSeen := d.lastSeen
    isAdmin := d.isAdmin || d.email == adminEmail
    isBanned := d.isBanned }

/-- The data handed to `UserModel.createUser`. -/
structure UserData where
  username : String
  email : String
  avatar : String
  status : String
  lastSeen : Nat

/-- The document `createUser` inserts: `isAdmin` from the hardcoded
email comparison, no `isBanned` field (falsy). -/
def createdUserDoc (data : UserData) (st : UserStore) : UserDoc :=
  { docId := st.nextId
    username := data.username
    email := data.email
    avatar := data.avatar
    status := data.status
    lastSeen := data.lastSeen
    isAdmin := data.email == adminEmail
    isBanned := false }

/-- `UserModel.createUser`: inserts `createdUserDoc` and returns
`{ id, ...userData }` — note the returned object spreads only the input
data, so its `isAdmin`/`isBanned` are absent (falsy). -/
def createUser (data : UserData) (st : UserStore) : User × UserStore :=
  ({ id := oidString st.nextId
     username := data.username
     email := data.email
     avatar := data.avatar
     status := data.status
     lastSeen := data.lastSeen
     isAdmin := false
     isBanned := false },
   { docs := st.docs ++ [createdUserDoc data st], nextId := st.nextId + 1 })

/-- `UserModel.findUserByEmail`: `findOne({ email })`. -/
def findUserByEmail (st : UserStore) (email : String) : Option User :=
  (st.docs.find? (fun d => d.email == email)).map transformDocument

/-- `UserModel.findUserById`: `findOne({ _id })`. -/
def findUserById (st : UserStore) (userId : String) : Option User :=
  (st.docs.find? (fun d => oidString d.docId == userId)).map transformDocument

/-- `UserModel.updateLastSeen`: `updateOne` setting `lastSeen`. -/
def updateLastSeen (st : UserStore) (userId : String) (now : Nat) : UserStore :=
  { st with
    docs := updateFirst (fun d => oidString d.docId == userId)
      (fun d => { d with lastSeen := now }) st.docs }

/-- `UserModel.deleteUser` (soft-ban): `updateOne` setting
`isBanned: true`, reporting `modifiedCount === 1`.  MongoDB counts a
document as modified only when a field value actually changes, so a
user that is already banned yields `modifiedCount = 0` and `false`. -/
def deleteUser (st : UserStore) (userId : String) : Bool × UserStore :=
  match st.docs.find? (fun d => oidString d.docId == userId) with
  | none => (false, st)
  | some d =>
    if d.isBanned then (false, st)
    else
      (true,
       { st with
         docs := updateFirst (fun d => oidString d.docId == userId)
           (fun x => { x with isBanned := true }) st.docs })

/-- `UserModel.banUser`: the same `updateOne` as `deleteUser`. -/
def banUser (st : UserStore) (userId : String) : Bool × UserStore :=
  deleteUser st userId

end UserModel

/-- A stored group document (collection `groups`). -/
structure GroupDoc where
  docId : Nat
  name : String
  avatar : Option String
  adminId : String
  memberIds : List String
  createdAt : Nat
deriving DecidableEq

/-- The API-level `Group` object. -/
structure Group where
  id : String
  name : String
  avatar : Option String
  adminId : String
  memberIds : List String
  createdAt : Nat
deriving DecidableEq

/-- The `groups` collection. -/
structure GroupStore where
  docs : List GroupDoc
  nextId : Nat
deriving DecidableEq

namespace GroupModel

/-- `GroupModel.transformDocument`. -/
def transformDocument (d : GroupDoc) : Group :=
  { id := oidString d.docId
    name := d.name
    avatar := d.avatar
    adminId := d.adminId
    memberIds := d.memberIds
    createdAt := d.createdAt }

/-- The data handed to `GroupModel.createGroup`. -/
structure GroupData where
  name : String
  avatar : Option String
  adminId : String
  memberIds : List String
  createdAt : Nat

/-- `GroupModel.createGroup`: inserts the document exactly as given. -/
def createGroup (data : GroupData) (st : GroupStore) : Group × GroupStore :=
  let doc : GroupDoc :=
    { docId := st.nextId
      name := data.name
      avatar := data.avatar
      adminId := data.adminId
      memberIds := data.memberIds
      createdAt := data.createdAt }
  ({ id := oidString st.nextId
     name := data.name
     avatar := data.avatar
     adminId := data.adminId
     memberIds := data.memberIds
     createdAt := data.createdAt },
   { docs := st.docs ++ [doc], nextId := st.nextId + 1 })

/-- `GroupModel.getGroup`: `findOne({ _id })`. -/
def getGroup (st : GroupStore) (groupId : String) : Option Group :=
  (st.docs.find? (fun d => oidString d.docId == groupId)).map transformDocument

/-- `GroupModel.removeUserFromAllGroups`: `updateMany` over every group
whose `memberIds` contains the user, `$pull`ing the user out —
including groups the user administers. -/
def removeUserFromAllGroups (st : GroupStore) (userId : String) : GroupStore :=
  { st with
    docs := st.docs.map (fun g =>
      if userId ∈ g.memberIds then
        { g with memberIds := g.memberIds.filter (fun m => m ≠ userId) }
      else g) }

/-- `GroupModel.removeMemberFromGroup`: `updateOne` with
`$pull: { memberIds: userId }`, reporting `modifiedCount === 1`; pulling
an absent member modifies nothing and yields `false`. -/
def removeMemberFromGroup (st : GroupStore) (groupId userId : String) : Bool × GroupStore :=
  match st.docs.find? (fun d => oidString d.docId == groupId) with
  | none => (false, st)
  | some d =>
    if userId ∈ d.memberIds then
      (true,
       { st with
         docs := updateFirst (fun d => oidString d.docId == groupId)
           (fun x => { x with memberIds := x.memberIds.filter (fun m => m ≠ userId) }) st.docs })
    else (false, st)

end GroupModel

namespace UserController

/-- The JSON body of a `POST /users` request. -/
structure RegisterReq where
  username : Option String
  email : Option String
  avatar : Option String
  status : Option String

/-- The default avatar `https://api.dicebear.com/...?seed=${email}`. -/
def dicebearAvatar (email : String) : String :=
  "https://api.dicebear.com/7.x/avataaars/svg?seed=" ++ email

/-- The payload `registerUser` hands to `createUser`: default avatar
and default status text when the request carries none. -/
def regData (req : RegisterReq) (now : Nat) : UserModel.UserData :=
  { username := req.username.getD ("")
    email := req.email.getD ("")
    avatar := if truthyS req.avatar then req.avatar.getD ("")
              else dicebearAvatar (req.email.getD (""))
    status := if truthyS req.status then req.status.getD ("")
              else "Hey there! I am using Connect."
    lastSeen := now }

/-- `UserController.registerUser` (`POST /users`): 400 on missing
username/email; if a user with the email exists, bump its `lastSeen` and
answer 200 with the existing user; otherwise create one and answer 201.
`now` models `Date.now()`. -/
def registerUser (req : RegisterReq) (now : Nat) (st : UserStore) :
    (Nat × Option User) × UserStore :=
  if !(truthyS req.username) || !(truthyS req.email) then ((400, none), st)
  else
    match UserModel.findUserByEmail st (req.email.getD ("")) with
    | some existing =>
      ((200, some existing), UserModel.updateLastSeen st existing.id now)
    | none =>
      let (u, st') := UserModel.createUser (regData req now) st
      ((201, some u), st')

/-- `UserController.deleteUser` (`DELETE /users/:id`, soft-ban): 404
when `UserModel.deleteUser` reports no modification, else 200. -/
def deleteUser (userId : String) (st : UserStore) : Nat × UserStore :=
  match UserModel.deleteUser st userId with
  | (false, st') => (404, st')
  | (true, st') => (200, st')

/-- `UserController.banUser` (`POST /users/:id/ban`): verify the acting
admin (403), ban via `UserModel.banUser` (404 when nothing was
modified, skipping the cascade), then cascade-delete the user's
messages and remove the user from all groups. -/
def banUser (userId adminId : String) (ust : UserStore) (mst : MsgStore) (gst : GroupStore) :
    Nat × UserStore × MsgStore × GroupStore :=
  match UserModel.findUserById ust adminId with
  | none => (403, ust, mst, gst)
  | some admin =>
    if !admin.isAdmin then (403, ust, mst, gst)
    else
      match UserModel.banUser ust userId with
      | (false, ust') => (404, ust', mst, gst)
      | (true, ust') =>
        (200, ust', MessageModel.deleteAllMessagesFromUser mst userId,
         GroupModel.removeUserFromAllGroups gst userId)

end UserController

namespace GroupController

/-- The JSON body of a `POST /groups` request (`memberIds` is `none`
when absent or not an array). -/
structure CreateGroupReq where
  name : Option String
  avatar : Option String
  adminId : Option String
  memberIds : Option (List String)

/-- The default group avatar. -/
def dicebearInitials (name : String) : String :=
  "https://api.dicebear.com/7.x/initials/svg?seed=" ++ name

/-- `GroupController.createGroup` (`POST /groups`): 400 on missing
fields or fewer than 2 members; otherwise store the group exactly as
given — `adminId` is **not** added to `memberIds`. -/
def createGroup (req : CreateGroupReq) (now : Nat) (st : GroupStore) :
    (Nat × Option Group) × GroupStore :=
  if !(truthyS req.name) || !(truthyS req.adminId) || req.memberIds == none then
    ((400, none), st)
  else if (req.memberIds.getD []).length < 2 then ((400, none), st)
  else
    let (g, st') := GroupModel.createGroup
      { name := req.name.getD ("")
        avatar := some (if truthyS req.avatar then req.avatar.getD ("")
                        else dicebearInitials (req.name.getD ("")))
        adminId := req.adminId.getD ("")
        memberIds := req.memberIds.getD []
        createdAt := now } st
    ((201, some g), st')

/-- `GroupController.removeMember` (`DELETE /groups/:groupId/members`):
400 on missing fields, 404 unknown group, 403 when the requester is not
the group admin, 400 when the target **is** the group admin, otherwise
`$pull` the member (400 when nothing was modified). -/
def removeMember (groupId : String) (userId adminId : Option String) (st : GroupStore) :
    Nat × GroupStore :=
  if !(truthyS userId) || !(truthyS adminId) then (400, st)
  else
    match GroupModel.getGroup st groupId with
    | none => (404, st)
    | some group =>
      if group.adminId ≠ adminId.getD ("") then (403, st)
      else if userId.getD ("") = group.adminId then (400, st)
      else
        match GroupModel.removeMemberFromGroup st groupId (userId.getD ("")) with
        | (false, st') => (400, st')
        | (true, st') => (200, st')

end GroupController

/-- The outcome of the underlying `fetch` inside `ApiService.request`:
a network error, an abort by the 3-second timeout, or an HTTP response
with a status code and (for 2xx) a parsed body. -/
inductive FetchOutcome (β : Type) where
  | networkError : FetchOutcome β
  | timeout : FetchOutcome β
  | httpResponse : Nat → β → FetchOutcome β

namespace ApiService

/-- `ApiService.request`: returns `none` immediately in mock mode;
otherwise every exception (network error, timeout, non-2xx status
turned into a thrown error) is caught and converted to `none`, and a
2xx response yields its parsed body.  The function never throws. -/
def request {β : Type} (baseUrlMock : Bool) (outcome : FetchOutcome β) : Option β :=
  if baseUrlMock then none
  else
    match outcome with
    | FetchOutcome.networkError => none
    | FetchOutcome.timeout => none
    | FetchOutcome.httpResponse status body =>
      if 200 ≤ status ∧ status ≤ 299 then some body else none

/-- `ApiService.banUser`: `try { await request(...); return true }
catch { return false }` — since `request` never throws, the `catch`
is dead and the function returns `true` whatever the outcome. -/
def banUser (outcome : FetchOutcome Unit) : Bool :=
  let _r := request false outcome
  true

/-- `ApiService.deleteUser`: same dead-`catch` pattern as `banUser`. -/
def deleteUser (outcome : FetchOutcome Unit) : Bool :=
  let _r := request false outcome
  true

/-- `ApiService.addMemberToGroup`: same dead-`catch` pattern. -/
def addMemberToGroup (outcome : FetchOutcome Unit) : Bool :=
  let _r := request false outcome
  true

/-- `ApiService.removeMemberFromGroup`: same dead-`catch` pattern. -/
def removeMemberFromGroup (outcome : FetchOutcome Unit) : Bool :=
  let _r := request false outcome
  true

/-- `ApiService.deleteGroup`: same dead-`catch` pattern. -/
def deleteGroup (outcome : FetchOutcome Unit) : Bool :=
  let _r := request false outcome
  true

/-- `ApiService.editMessage`: same dead-`catch` pattern. -/
def editMessage (outcome : FetchOutcome Unit) : Bool :=
  let _r := request false outcome
  true

/-- `ApiService.deleteMessage`: same dead-`catch` pattern. -/
def deleteMessage (outcome : FetchOutcome Unit) : Bool :=
  let _r := request false outcome
  true

/-- `ApiService.createGroup`: returns the `request` result directly, so
`null` (`none`) on any failure. -/
def createGroup (outcome : FetchOutcome Group) : Option Group :=
  request false outcome

/-- `ApiService.cleanupTestData`: returns the `request` result, `null`
on failure. -/
def cleanupTestData (outcome : FetchOutcome (Nat × Nat × Nat)) : Option (Nat × Nat × Nat) :=
  request false outcome

/-- `ApiService.getUserGroups`: `return await this.request(...)` — the
`catch { return [] }` is dead, so a failed request yields `null`
(`none`), not `[]`. -/
def getUserGroups (outcome : FetchOutcome (List Group)) : Option (List Group) :=
  request false outcome

/-- `ApiService.getGroupMessages`: same as `getUserGroups`, `null` on
failure. -/
def getGroupMessages (outcome : FetchOutcome (List Message)) : Option (List Message) :=
  request false outcome

/-- `ApiService.getAllGroupsForAdmin`: `groups || []`, so this one does
degrade to `[]` on failure. -/
def getAllGroupsForAdmin (outcome : FetchOutcome (List Group)) : List Group :=
  (request false outcome).getD []

/-- The local-fallback branch of `ApiService.getMessages`: the same
bidirectional filter over the local mirror, with **no** sorting. -/
def getMessagesLocal (localMsgs : List Message) (user1Id user2Id : String) : List Message :=
  localMsgs.filter (fun m =>
    (m.senderId == user1Id && m.receiverId == user2Id) ||
    (m.senderId == user2Id && m.receiverId == user1Id))

/-- `ApiService.getGravatar`: dicebear URL seeded with the trimmed,
lowercased email. -/
def getGravatar (email : String) : String :=
  "https://api.dicebear.com/7.x/avataaars/svg?seed=" ++ (email.trim.toLower)

/-- A record of the `connect_mock_users` local store. -/
structure LocalUser where
  id : String
  username : String
  email : String
  avatar : String
  status : String
  lastSeen : Nat
deriving DecidableEq

/-- The record the local fallback would append: payload with default
avatar and status, `lastSeen = Date.now()`, and the minted id
`'u-' + random` (`rand` models the random suffix). -/
def localCandidate (username email : String) (avatar : Option String) (now : Nat)
    (rand : String) : LocalUser :=
  { id := "u-" ++ rand
    username := username
    email := email
    avatar := if truthyS avatar then avatar.getD ("") else getGravatar email
    status := "Hey there! I am using Connect."
    lastSeen := now }

/-- The local-fallback branch of `ApiService.registerUser`: append the
candidate to `connect_mock_users` unless a user with the same email
already exists (the comparison `u.email === localUser.email` is against
the input email), in which case the existing record is returned
unchanged. -/
def registerUserLocal (username email : String) (avatar : Option String) (now : Nat)
    (rand : String) (localUsers : List LocalUser) : LocalUser × List LocalUser :=
  match localUsers.find? (fun u => u.email == email) with
  | some existing => (existing, localUsers)
  | none =>
    (localCandidate username email avatar now rand,
     localUsers ++ [localCandidate username email avatar now rand])

end ApiService

/-- Ascending-timestamp sortedness of a message list. -/
def sortedByTimestamp (l : List Message) : Prop :=
  l.Pairwise (fun a b => a.timestamp ≤ b.timestamp)

/-- The payload field selected by a stored message's type tag is present
and non-empty. -/
def payloadMatchesTag (d : MessageDoc) : Bool :=
  match d.type with
  | MsgType.text => truthyS d.text
  | MsgType.image => truthyS d.imageUrl
  | MsgType.audio => truthyS d.audioUrl
  | MsgType.file => truthyS d.fileUrl

/-- Remote-path register idempotence: two consecutive `POST /users`
calls with the same body return users whose email matches the input,
whose ids are nonempty, and whose ids agree. -/
def registerIdemRemote (req : UserController.RegisterReq) (now1 now2 : Nat)
    (ust : UserStore) : Prop :=
  ∃ u1 u2 : User,
    (UserController.registerUser req now1 ust).1.2 = some u1 ∧
    (UserController.registerUser req now2 (UserController.registerUser req now1 ust).2).1.2 =
      some u2 ∧
    u1.email = req.email.getD ("") ∧ u1.id ≠ "" ∧ u2.id = u1.id ∧ u2.email = u1.email

/-- Local-fallback register idempotence: the first call returns a user
with the input email and a nonempty id, and a second call returns the
very same record while leaving the local store unchanged (no duplicate
record). -/
def registerIdemLocal (username email : String) (avatar : Option String) (now1 now2 : Nat)
    (r1 r2 : String) (localUsers : List ApiService.LocalUser) : Prop :=
  (ApiService.registerUserLocal username email avatar now1 r1 localUsers).1.email = email ∧
  (ApiService.registerUserLocal username email avatar now1 r1 localUsers).1.id ≠ "" ∧
  (ApiService.registerUserLocal username email avatar now2 r2
      (ApiService.registerUserLocal username email avatar now1 r1 localUsers).2).1 =
    (ApiService.registerUserLocal username email avatar now1 r1 localUsers).1 ∧
  (ApiService.registerUserLocal username email avatar now2 r2
      (ApiService.registerUserLocal username email avatar now1 r1 localUsers).2).2 =
    (ApiService.registerUserLocal username email avatar now1 r1 localUsers).2

/-- A `POST /messages` body for a group message whose `receiverId`
differs from its `groupId`. -/
def c5req : MessageController.SendReq :=
  ⟨some ("s1"), some ("r1"), some ("hi"), none, none, none, none, none, some ("text"), some 5,
   none, some ("g1")⟩

/-- A valid direct-message `POST /messages` body (no `groupId`). -/
def c5directReq : MessageController.SendReq :=
  ⟨some ("s1"), some ("r1"), some ("hi"), none, none, none, none, none, some ("text"), some 7,
   none, none⟩

/-- A stored text message whose status is already `read`. -/
def c8doc : MessageDoc :=
  ⟨0, "a", "b", some ("hi"), none, none, none, none, none, MsgType.text, 5, MsgStatus.read, none⟩

/-- A one-message store for the status-update witness. -/
def c8st : MsgStore := ⟨[c8doc], 1⟩

/-- A user store holding an already-banned user and an admin. -/
def c10ust : UserStore :=
  ⟨[⟨0, "bob", "bob@x.com", "http://a", "s", 0, false, true⟩,
    ⟨1, "adm", "admin0909@gmail.com", "http://a", "s", 0, false, false⟩], 2⟩

/-- A group store with one well-formed group for the remove-member
witness. -/
def c3gst : GroupStore := ⟨[⟨0, "team", none, "a1", ["a1", "b1"], 0⟩], 1⟩

/-! Helper lemmas about the store primitives. -/

theorem append_left_ne_empty (s t : String) (h : 0 < s.length) : s ++ t ≠ "" := by
  intro he
  have h2 := congrArg String.length he
  simp only [String.length_append] at h2
  have h3 : ("" : String).length = 0 := rfl
  omega

theorem oidString_ne_empty (n : Nat) : oidString n ≠ "" := by
  unfold oidString
  exact append_left_ne_empty _ _ (by decide)

/-- `find?` after `updateFirst` agrees with `find?` before, up to a
projection that `f` preserves, provided `f` also preserves the search
predicate. -/
theorem find?_updateFirst_proj {α γ : Type} (p q : α → Bool) (f : α → α) (g : α → γ)
    (hq : ∀ x, q (f x) = q x) (hg : ∀ x, g (f x) = g x) :
    ∀ l : List α, ((updateFirst p f l).find? q).map g = (l.find? q).map g := by
  intro l
  induction l with
  | nil => rfl
  | cons d ds ih =>
    unfold updateFirst
    by_cases hp : p d = true
    · rw [if_pos hp]
      by_cases hqd : q d = true
      · rw [List.find?_cons_of_pos _ (by rw [hq]; exact hqd), List.find?_cons_of_pos _ hqd]
        simp [hg]
      · rw [List.find?_cons_of_neg _ (by rw [hq]; exact hqd), List.find?_cons_of_neg _ hqd]
    · rw [if_neg hp]
      by_cases hqd : q d = true
      · rw [List.find?_cons_of_pos _ hqd, List.find?_cons_of_pos _ hqd]
      · rw [List.find?_cons_of_neg _ hqd, List.find?_cons_of_neg _ hqd]
        exact ih

/-- `find?` with the update predicate itself: the first match is exactly
the updated document. -/
theorem find?_updateFirst_self {α : Type} (p : α → Bool) (f : α → α)
    (hp : ∀ x, p (f x) = p x) :
    ∀ l : List α, (updateFirst p f l).find? p = (l.find? p).map f := by
  intro l
  induction l with
  | nil => rfl
  | cons d ds ih =>
    unfold updateFirst
    by_cases hpd : p d = true
    · rw [if_pos hpd, List.find?_cons_of_pos _ (by rw [hp]; exact hpd),
        List.find?_cons_of_pos _ hpd]
      rfl
    · rw [if_neg hpd, List.find?_cons_of_neg _ hpd, List.find?_cons_of_neg _ hpd]
      exact ih

/-- An invariant holding on every element of a list is preserved by an
`updateFirst` whose update keeps the invariant on the document it can
actually touch (the first `p`-match). -/
theorem updateFirst_preserves {α : Type} (p : α → Bool) (f : α → α) (Inv : α → Prop) :
    ∀ l : List α, (∀ g ∈ l, Inv g) → (∀ g, l.find? p = some g → Inv (f g)) →
      ∀ g ∈ updateFirst p f l, Inv g := by
  intro l
  induction l with
  | nil => intro _ _ g hg; cases hg
  | cons d ds ih =>
    intro h hf g hg
    unfold updateFirst at hg
    by_cases hpd : p d = true
    · rw [if_pos hpd] at hg
      rcases List.mem_cons.mp hg with h1 | h2
      · rw [h1]
        exact hf d (List.find?_cons_of_pos _ hpd)
      · exact h g (List.mem_cons_of_mem _ h2)
    · rw [if_neg hpd] at hg
      rcases List.mem_cons.mp hg with h1 | h2
      · rw [h1]
        exact h d (List.mem_cons_self _ _)
      · exact ih (fun x hx => h x (List.mem_cons_of_mem _ hx))
          (fun x hx => hf x (by rw [List.find?_cons_of_neg _ hpd]; exact hx)) g h2

/-- The store left by `removeMemberFromGroup` is either untouched or
the first-matching group with the user pulled from its `memberIds`. -/
theorem removeMemberFromGroup_docs (st : GroupStore) (groupId userId : String) (b : Bool)
    (st' : GroupStore) (h : GroupModel.removeMemberFromGroup st groupId userId = (b, st')) :
    st' = st ∨
    st'.docs = updateFirst (fun x => oidString x.docId == groupId)
      (fun x => { x with memberIds := x.memberIds.filter (fun m => m ≠ userId) }) st.docs := by
  unfold GroupModel.removeMemberFromGroup at h
  split at h
  · cases h
    left
    rfl
  · split at h
    · cases h
      right
      rfl
    · cases h
      left
      rfl

/-- Transitivity of the timestamp comparison used by the remote sort. -/
theorem tsLe_trans (x y z : MessageDoc) (hxy : MessageModel.tsLe x y = true)
    (hyz : MessageModel.tsLe y z = true) : MessageModel.tsLe x z = true := by
  simp only [MessageModel.tsLe, decide_eq_true_eq] at hxy hyz ⊢
  omega

/-- Totality of the timestamp comparison used by the remote sort. -/
theorem tsLe_total (x y : MessageDoc) :
    (MessageModel.tsLe x y || MessageModel.tsLe y x) = true := by
  rcases Nat.le_total x.timestamp y.timestamp with h | h <;>
    simp [MessageModel.tsLe, h]

/-- A `POST /messages` answered 201 went through the whole validation
chain and appended exactly the `createMessage` document. -/
theorem sendMessage_201 (banned : String → Bool) (req : MessageController.SendReq)
    (st : MsgStore) (h : (MessageController.sendMessage banned req st).1.1 = 201) :
    ∃ ty, parseMsgType (req.type.getD ("")) = some ty ∧
      MessageController.sendContentBad ty req = false ∧
      MessageController.sendMessage banned req st =
        ((201, some (MessageModel.createMessage (MessageController.sendData req ty) st).1),
         (MessageModel.createMessage (MessageController.sendData req ty) st).2) := by
  unfold MessageController.sendMessage at h ⊢
  split at h
  next h1 => simp at h
  next h1 =>
    split at h
    next hty => simp at h
    next ty hty =>
      split at h
      next h2 => simp at h
      next h2 =>
        split at h
        next h3 => simp at h
        next h3 =>
          split at h
          next h4 => simp at h
          next h4 =>
            refine ⟨ty, hty, by simpa using h2, ?_⟩
            rw [if_neg h1]
            simp only [hty]
            rw [if_neg h2, if_neg h3, if_neg h4]

/-- A valid `POST /users` whose email already exists answers 200 with
the existing user and merely bumps its `lastSeen`. -/
theorem registerUser_existing (username email : String) (avatar stv : Option String)
    (now : Nat) (ust : UserStore) (e : User)
    (hu : username ≠ "") (hm : email ≠ "")
    (hfound : UserModel.findUserByEmail ust email = some e) :
    UserController.registerUser ⟨some username, some email, avatar, stv⟩ now ust =
      ((200, some e), UserModel.updateLastSeen ust e.id now) := by
  unfold UserController.registerUser
  rw [if_neg (by simp [truthyS, hu, hm])]
  simp only [Option.getD_some, hfound]

/-- A valid `POST /users` whose email is new answers 201 with the user
returned by `createUser`. -/
theorem registerUser_fresh (username email : String) (avatar stv : Option String)
    (now : Nat) (ust : UserStore)
    (hu : username ≠ "") (hm : email ≠ "")
    (hnone : UserModel.findUserByEmail ust email = none) :
    UserController.registerUser ⟨some username, some email, avatar, stv⟩ now ust =
      ((201, some (UserModel.createUser
          (UserController.regData ⟨some username, some email, avatar, stv⟩ now) ust).1),
       (UserModel.createUser
          (UserController.regData ⟨some username, some email, avatar, stv⟩ now) ust).2) := by
  unfold UserController.registerUser
  rw [if_neg (by simp [truthyS, hu, hm])]
  simp only [Option.getD_some, hnone]

/-- `updateLastSeen` does not disturb a lookup by email: the first
email match keeps its `docId` and `email`. -/
theorem find?_email_after_touch (ust : UserStore) (idStr email : String) (now : Nat)
    (d0 : UserDoc) (hfound : ust.docs.find? (fun d => d.email == email) = some d0) :
    ∃ d1, (UserModel.updateLastSeen ust idStr now).docs.find? (fun d => d.email == email) =
        some d1 ∧ d1.docId = d0.docId ∧ d1.email = d0.email := by
  have hproj := find?_updateFirst_proj (fun (d : UserDoc) => oidString d.docId == idStr)
    (fun (d : UserDoc) => d.email == email) (fun (d : UserDoc) => { d with lastSeen := now })
    (fun (d : UserDoc) => (d.docId, d.email)) (fun x => rfl) (fun x => rfl) ust.docs
  rw [hfound] at hproj
  obtain ⟨d1, hd1, hg⟩ := Option.map_eq_some'.mp hproj
  obtain ⟨h1, h2⟩ := Prod.mk.injEq .. ▸ hg
  exact ⟨d1, hd1, h1, h2⟩

/-- After `createUser` on a store with no user of that email, a lookup
by that email finds exactly the inserted document. -/
theorem findUserByEmail_after_create (ust : UserStore) (email : String)
    (data : UserModel.UserData) (hmail : data.email = email)
    (hnone : UserModel.findUserByEmail ust email = none) :
    UserModel.findUserByEmail (UserModel.createUser data ust).2 email =
      some (UserModel.transformDocument (UserModel.createdUserDoc data ust)) := by
  unfold UserModel.findUserByEmail at hnone ⊢
  have hfind : ust.docs.find? (fun d => d.email == email) = none :=
    Option.map_eq_none'.mp hnone
  show ((ust.docs ++ [UserModel.createdUserDoc data ust]).find?
      (fun d => d.email == email)).map UserModel.transformDocument = _
  rw [List.find?_append, hfind, Option.none_or,
    List.find?_cons_of_pos _ (by simp [UserModel.createdUserDoc, hmail])]
  rfl

/-! Claim theorems. -/

/-- Claim C1 (code evaluated at the failing input): every Sync Gateway
operation of the `try { await request; return true } catch` family
returns `true` — a success value — even when the remote call fails with
a network error, a timeout, or a 5xx response, because
`ApiService.request` never throws and the `catch` is dead code. -/
theorem c1_gateway_true_on_failure :
    ApiService.banUser FetchOutcome.networkError = true ∧
    ApiService.banUser FetchOutcome.timeout = true ∧
    ApiService.banUser (FetchOutcome.httpResponse 500 ()) = true ∧
    ApiService.deleteUser FetchOutcome.networkError = true ∧
    ApiService.addMemberToGroup FetchOutcome.networkError = true ∧
    ApiService.removeMemberFromGroup FetchOutcome.networkError = true ∧
    ApiService.deleteGroup FetchOutcome.networkError = true ∧
    ApiService.editMessage FetchOutcome.networkError = true ∧
    ApiService.deleteMessage FetchOutcome.networkError = true ∧
    ApiService.createGroup FetchOutcome.networkError = none ∧
    ApiService.cleanupTestData FetchOutcome.networkError = none := by
  decide

/-- Claim C2 (code evaluated at the failing input): a
`PATCH /messages/:id` by a non-sender answers 403 but the stored
message text has already been changed — the edit is applied before the
sender check and is not reverted. -/
theorem c2_edit_applied_despite_403 :
    ((MessageController.editMessage (oidString 0) (some ("hacked")) (some ("mallory"))
        ⟨[⟨0, "alice", "bob", some ("hi"), none, none, none, none, none, MsgType.text, 5,
           MsgStatus.sent, none⟩], 1⟩).1.1 = 403) ∧
    ((MessageController.editMessage (oidString 0) (some ("hacked")) (some ("mallory"))
        ⟨[⟨0, "alice", "bob", some ("hi"), none, none, none, none, none, MsgType.text, 5,
           MsgStatus.sent, none⟩], 1⟩).2.docs.map (fun d => d.text) = [some ("hacked")]) := by
  decide

/-- Claim C3, counterexample: the admin-ban cascade
`removeUserFromAllGroups` pulls the banned user out of the memberIds of
every group, including a group the user administers, leaving a group
whose `adminId` is no longer in `memberIds`. -/
theorem c3_ban_cascade_removes_admin :
    ∃ g ∈ (GroupModel.removeUserFromAllGroups
        ⟨[⟨0, "team", none, "u1", ["u1", "u2"], 0⟩], 1⟩ ("u1")).docs,
      g.adminId ∉ g.memberIds := by
  decide

/-- Claim C3, amended: the `removeGroupMember` endpoint preserves the
invariant that every group's `adminId` is among its `memberIds` — in
particular removing the admin through it is impossible (rejected with
400 before any write).  The invariant is **not** preserved by group
creation (which stores `memberIds` as given) nor by the admin-ban
cascade (see the counterexample). -/
theorem c3_remove_member_preserves_admin (groupId : String) (userId adminId : Option String)
    (st : GroupStore) (hinv : ∀ g ∈ st.docs, g.adminId ∈ g.memberIds) :
    ∀ g ∈ (GroupController.removeMember groupId userId adminId st).2.docs,
      g.adminId ∈ g.memberIds := by
  rcases hr : GroupController.removeMember groupId userId adminId st with ⟨code, st2⟩
  unfold GroupController.removeMember at hr
  split at hr
  · cases hr
    exact hinv
  split at hr
  · cases hr
    exact hinv
  next group hgroup =>
    split at hr
    · cases hr
      exact hinv
    split at hr
    · cases hr
      exact hinv
    next hadm =>
      have hmain : ∀ b st3, GroupModel.removeMemberFromGroup st groupId (userId.getD ("")) =
          (b, st3) → ∀ g ∈ st3.docs, g.adminId ∈ g.memberIds := by
        intro b st3 heq
        rcases removeMemberFromGroup_docs st groupId (userId.getD ("")) b st3 heq with h1 | h2
        · rw [h1]
          exact hinv
        · intro g hg
          rw [h2] at hg
          refine updateFirst_preserves _ _ _ st.docs hinv ?_ g hg
          intro x hx
          unfold GroupModel.getGroup at hgroup
          rw [hx] at hgroup
          have hx2 : GroupModel.transformDocument x = group := by
            exact Option.some_injective _ hgroup
          have hadmx : x.adminId ≠ userId.getD ("") := by
            intro e
            apply hadm
            rw [← hx2, GroupModel.transformDocument]
            exact e.symm
          refine List.mem_filter.mpr ⟨hinv x (List.mem_of_find?_eq_some hx), ?_⟩
          simp [hadmx]
      split at hr
      · cases hr
        exact hmain _ _ (by assumption)
      · cases hr
        exact hmain _ _ (by assumption)

/-- Claim C3, amended-theorem witness: after removing the non-admin
member of the concrete group store `c3gst`, the one remaining group
document still lists its admin among its members. -/
theorem c3_remove_member_preserves_admin_witness :
    (⟨0, "team", none, "a1", ["a1"], 0⟩ : GroupDoc).adminId ∈
      (⟨0, "team", none, "a1", ["a1"], 0⟩ : GroupDoc).memberIds :=
  c3_remove_member_preserves_admin (oidString 0) (some ("b1")) (some ("a1")) c3gst
    (by decide) ⟨0, "team", none, "a1", ["a1"], 0⟩ (by decide)

/-- Claim C5, counterexample: repeating a group-message `POST /messages`
whose `receiverId` differs from its `groupId` is **re-inserted** and
answered 201 (not 200): the duplicate check matches the raw
`receiverId` while the stored message had its receiver replaced by the
`groupId`, so after both calls the store holds zero messages with the
request's `(senderId, receiverId, timestamp)` triple and two messages
sharing the stored triple. -/
theorem c5_group_duplicate_reinserted :
    ((MessageController.sendMessage (fun _ => false) c5req
        (MessageController.sendMessage (fun _ => false) c5req ⟨[], 0⟩).2).1.1 = 201) ∧
    (((MessageController.sendMessage (fun _ => false) c5req
        (MessageController.sendMessage (fun _ => false) c5req ⟨[], 0⟩).2).2.docs.filter
        (dupKeyPred ("s1") (some ("r1")) 5)).length = 0) ∧
    (((MessageController.sendMessage (fun _ => false) c5req
        (MessageController.sendMessage (fun _ => false) c5req ⟨[], 0⟩).2).2.docs.map
        (fun d => (d.senderId, d.receiverId, d.timestamp))) =
      [("s1", "g1", 5), ("s1", "g1", 5)]) := by
  decide

/-- Claim C6, counterexample: the local fallback of
`ApiService.getMessages` filters but does not sort, so with the local
mirror holding a later message before an earlier one the returned list
is not ascending by timestamp. -/
theorem c6_local_fallback_unsorted :
    ¬ sortedByTimestamp (ApiService.getMessagesLocal
      [⟨"m2", "a", "b", some ("x"), none, none, none, none, none, MsgType.text, 2,
        MsgStatus.sent, none⟩,
       ⟨"m1", "a", "b", some ("y"), none, none, none, none, none, MsgType.text, 1,
        MsgStatus.sent, none⟩] ("a") ("b")) := by
  unfold sortedByTimestamp
  decide

/-- Claim C4: for every valid `(username, email)` input, `registerUser`
returns a user whose email equals the input and whose id is nonempty,
and a second call with the same email returns the same id — on the
remote path (the controller answers 200 with the existing user found by
email) and on the local fallback path (the mirror is deduplicated by
email, with no duplicate record appended) alike. -/
theorem c4_register_idempotent (username email : String) (avatar stv : Option String)
    (now1 now2 : Nat) (ust : UserStore)
    (avL : Option String) (nl1 nl2 : Nat) (r1 r2 : String)
    (lus : List ApiService.LocalUser)
    (hu : username ≠ "") (hm : email ≠ "")
    (hl : ∀ u ∈ lus, u.id ≠ "") :
    registerIdemRemote ⟨some username, some email, avatar, stv⟩ now1 now2 ust ∧
    registerIdemLocal username email avL nl1 nl2 r1 r2 lus := by
  constructor
  · unfold registerIdemRemote
    rcases hfe : UserModel.findUserByEmail ust email with _ | e
    · have h1 := registerUser_fresh username email avatar stv now1 ust hu hm hfe
      have hmail : (UserController.regData ⟨some username, some email, avatar, stv⟩
          now1).email = email := rfl
      have h2find := findUserByEmail_after_create ust email _ hmail hfe
      have h2 := registerUser_existing username email avatar stv now2 _ _ hu hm h2find
      have hst1 : (UserController.registerUser ⟨some username, some email, avatar, stv⟩
          now1 ust).2 = (UserModel.createUser
          (UserController.regData ⟨some username, some email, avatar, stv⟩ now1) ust).2 := by
        rw [h1]
      refine ⟨(UserModel.createUser
          (UserController.regData ⟨some username, some email, avatar, stv⟩ now1) ust).1,
        UserModel.transformDocument (UserModel.createdUserDoc
          (UserController.regData ⟨some username, some email, avatar, stv⟩ now1) ust),
        ?_, ?_, ?_, ?_, ?_, ?_⟩
      · rw [h1]
      · rw [hst1, h2]
      · rfl
      · exact oidString_ne_empty _
      · rfl
      · rfl
    · have h1 := registerUser_existing username email avatar stv now1 ust e hu hm hfe
      obtain ⟨d0, hd0, hdt⟩ := Option.map_eq_some'.mp hfe
      obtain ⟨d1, hd1, hid, hem⟩ := find?_email_after_touch ust e.id email now1 d0 hd0
      have h2find : UserModel.findUserByEmail (UserModel.updateLastSeen ust e.id now1) email =
          some (UserModel.transformDocument d1) := by
        unfold UserModel.findUserByEmail
        rw [hd1]
        rfl
      have h2 := registerUser_existing username email avatar stv now2 _ _ hu hm h2find
      have hst1 : (UserController.registerUser ⟨some username, some email, avatar, stv⟩
          now1 ust).2 = UserModel.updateLastSeen ust e.id now1 := by
        rw [h1]
      have hde : d0.email = email := by
        have hp := List.find?_some hd0
        exact beq_iff_eq.mp hp
      refine ⟨e, UserModel.transformDocument d1, ?_, ?_, ?_, ?_, ?_, ?_⟩
      · rw [h1]
      · rw [hst1, h2]
      · have he : e.email = d0.email := by
          rw [← hdt]
          rfl
        rw [he, hde]
        rfl
      · rw [← hdt]
        exact oidString_ne_empty _
      · rw [← hdt]
        show oidString d1.docId = oidString d0.docId
        rw [hid]
      · rw [← hdt]
        show d1.email = d0.email
        exact hem
  · unfold registerIdemLocal
    rcases hf : lus.find? (fun u => u.email == email) with _ | ex
    · have h1 : ApiService.registerUserLocal username email avL nl1 r1 lus =
          (ApiService.localCandidate username email avL nl1 r1,
           lus ++ [ApiService.localCandidate username email avL nl1 r1]) := by
        unfold ApiService.registerUserLocal
        rw [hf]
      have h2 : ApiService.registerUserLocal username email avL nl2 r2
          (lus ++ [ApiService.localCandidate username email avL nl1 r1]) =
          (ApiService.localCandidate username email avL nl1 r1,
           lus ++ [ApiService.localCandidate username email avL nl1 r1]) := by
        unfold ApiService.registerUserLocal
        rw [List.find?_append, hf, Option.none_or,
          List.find?_cons_of_pos _ (by simp [ApiService.localCandidate])]
      have hsnd : (ApiService.registerUserLocal username email avL nl1 r1 lus).2 =
          lus ++ [ApiService.localCandidate username email avL nl1 r1] := by
        rw [h1]
      rw [hsnd, h1, h2]
      refine ⟨rfl, ?_, rfl, rfl⟩
      exact append_left_ne_empty _ _ (by decide)
    · have h1 : ApiService.registerUserLocal username email avL nl1 r1 lus = (ex, lus) := by
        unfold ApiService.registerUserLocal
        rw [hf]
      have h2 : ApiService.registerUserLocal username email avL nl2 r2 lus = (ex, lus) := by
        unfold ApiService.registerUserLocal
        rw [hf]
      have hsnd : (ApiService.registerUserLocal username email avL nl1 r1 lus).2 = lus := by
        rw [h1]
      rw [hsnd, h1, h2]
      refine ⟨?_, ?_, rfl, rfl⟩
      · have hp := List.find?_some hf
        exact beq_iff_eq.mp hp
      · exact hl ex (List.mem_of_find?_eq_some hf)

/-- Claim C4, witness: registering Ana twice against the empty remote
store and the empty local mirror. -/
theorem c4_register_idempotent_witness :
    registerIdemRemote ⟨some ("Ana"), some ("ana@x.com"), none, none⟩ 5 6 ⟨[], 0⟩ ∧
    registerIdemLocal ("Ana") ("ana@x.com") none 5 6 ("r1") ("r2") [] :=
  c4_register_idempotent ("Ana") ("ana@x.com") none none 5 6 ⟨[], 0⟩ none 5 6 ("r1") ("r2") []
    (by decide) (by decide) (by simp)

/-- Claim C5, amended: for a valid **direct-message** `POST /messages`
(no `groupId`) whose `(senderId, receiverId, timestamp)` triple is not
yet stored and whose sender is not banned, the first call inserts and
answers 201, a repeat of the identical call answers 200 without
touching the store, and the store then holds exactly one message with
that triple.  (For group posts the duplicate check compares the raw
`receiverId` against documents whose receiver was replaced by the
`groupId`, so a repeat with `receiverId ≠ groupId` is re-inserted —
see the counterexample.) -/
theorem c5_direct_duplicate_skipped (banned : String → Bool)
    (req : MessageController.SendReq) (st : MsgStore) (ty : MsgType)
    (hs : truthyS req.senderId = true)
    (hr : truthyS req.receiverId = true)
    (hg : truthyS req.groupId = false)
    (htt : truthyS req.type = true)
    (ht : truthyN req.timestamp = true)
    (hty : parseMsgType (req.type.getD ("")) = some ty)
    (hcontent : MessageController.sendContentBad ty req = false)
    (hdup : MessageModel.checkDuplicateMessage st (req.senderId.getD ("")) req.receiverId
      (req.timestamp.getD 0) = false)
    (hban : banned (req.senderId.getD ("")) = false) :
    ((MessageController.sendMessage banned req st).1.1 = 201) ∧
    ((MessageController.sendMessage banned req
        (MessageController.sendMessage banned req st).2).1.1 = 200) ∧
    ((MessageController.sendMessage banned req
        (MessageController.sendMessage banned req st).2).2 =
      (MessageController.sendMessage banned req st).2) ∧
    (((MessageController.sendMessage banned req st).2.docs.filter
        (dupKeyPred (req.senderId.getD ("")) req.receiverId
          (req.timestamp.getD 0))).length = 1) := by
  have hmiss : MessageController.sendReqMissing req = false := by
    simp [MessageController.sendReqMissing, hs, hr, htt, ht]
  have hred : ∀ st0 : MsgStore,
      MessageController.sendMessage banned req st0 =
        if MessageModel.checkDuplicateMessage st0 (req.senderId.getD ("")) req.receiverId
            (req.timestamp.getD 0) then ((200, none), st0)
        else ((201, some (MessageModel.createMessage (MessageController.sendData req ty) st0).1),
          (MessageModel.createMessage (MessageController.sendData req ty) st0).2) := by
    intro st0
    unfold MessageController.sendMessage
    rw [if_neg (by simp [hmiss])]
    simp only [hty]
    rw [if_neg (by simp [hcontent])]
    by_cases hd : MessageModel.checkDuplicateMessage st0 (req.senderId.getD ("")) req.receiverId
        (req.timestamp.getD 0) = true
    · rw [if_pos hd, if_pos hd]
    · rw [if_neg hd, if_neg hd, if_neg (by simp [hban])]
  obtain ⟨rv, hrv⟩ : ∃ rv, req.receiverId = some rv := by
    cases hx : req.receiverId
    · rw [hx] at hr
      simp [truthyS] at hr
    · exact ⟨_, rfl⟩
  have hr1 : MessageController.sendMessage banned req st =
      ((201, some (MessageModel.createMessage (MessageController.sendData req ty) st).1),
       (MessageModel.createMessage (MessageController.sendData req ty) st).2) := by
    rw [hred st, if_neg (by simp [hdup])]
  have hI : (MessageController.sendMessage banned req st).2 =
      (MessageModel.createMessage (MessageController.sendData req ty) st).2 := by
    rw [hr1]
  have hpred : dupKeyPred (req.senderId.getD ("")) req.receiverId (req.timestamp.getD 0)
      (MessageModel.createdDoc (MessageController.sendData req ty) st) = true := by
    unfold dupKeyPred MessageModel.createdDoc MessageController.sendData
    simp [hg, hrv]
  have hST1 : (MessageModel.createMessage (MessageController.sendData req ty) st).2.docs =
      st.docs ++ [MessageModel.createdDoc (MessageController.sendData req ty) st] := rfl
  have hdup1 : MessageModel.checkDuplicateMessage
      (MessageModel.createMessage (MessageController.sendData req ty) st).2
      (req.senderId.getD ("")) req.receiverId (req.timestamp.getD 0) = true := by
    unfold MessageModel.checkDuplicateMessage
    rw [hST1, List.any_append]
    simp [hpred]
  have hr2 : MessageController.sendMessage banned req
      (MessageController.sendMessage banned req st).2 =
      ((200, none), (MessageController.sendMessage banned req st).2) := by
    rw [hI, hred _, if_pos hdup1]
  refine ⟨by rw [hr1], by rw [hr2], by rw [hr2], ?_⟩
  rw [hI, hST1, List.filter_append]
  have hnil : st.docs.filter (dupKeyPred (req.senderId.getD ("")) req.receiverId
      (req.timestamp.getD 0)) = [] := by
    rw [List.filter_eq_nil_iff]
    intro x hx
    have hall := List.any_eq_false.mp hdup
    exact hall x hx
  rw [hnil]
  simp [hpred]

/-- Claim C5, amended-theorem witness: the concrete direct-message body
`c5directReq` against the empty store. -/
theorem c5_direct_duplicate_skipped_witness :
    ((MessageController.sendMessage (fun _ => false) c5directReq ⟨[], 0⟩).1.1 = 201) ∧
    ((MessageController.sendMessage (fun _ => false) c5directReq
        (MessageController.sendMessage (fun _ => false) c5directReq ⟨[], 0⟩).2).1.1 = 200) ∧
    ((MessageController.sendMessage (fun _ => false) c5directReq
        (MessageController.sendMessage (fun _ => false) c5directReq ⟨[], 0⟩).2).2 =
      (MessageController.sendMessage (fun _ => false) c5directReq ⟨[], 0⟩).2) ∧
    (((MessageController.sendMessage (fun _ => false) c5directReq ⟨[], 0⟩).2.docs.filter
        (dupKeyPred (c5directReq.senderId.getD ("")) c5directReq.receiverId
          (c5directReq.timestamp.getD 0))).length = 1) :=
  c5_direct_duplicate_skipped (fun _ => false) c5directReq ⟨[], 0⟩ MsgType.text (by decide)
    (by decide) (by decide) (by decide) (by decide) (by decide) (by decide) (by decide)
    (by decide)

/-- Claim C6, amended: `listDirectMessages(a,b)` and
`listDirectMessages(b,a)` return identical lists on the remote path and
on the local fallback path alike, and the **remote** result is sorted
ascending by timestamp; the local fallback result keeps raw store order
and need not be sorted (see the counterexample). -/
theorem c6_symmetric_and_remote_sorted (st : MsgStore) (localMsgs : List Message)
    (a b : String) :
    MessageModel.getMessagesBetweenUsers st a b = MessageModel.getMessagesBetweenUsers st b a ∧
    sortedByTimestamp (MessageModel.getMessagesBetweenUsers st a b) ∧
    ApiService.getMessagesLocal localMsgs a b = ApiService.getMessagesLocal localMsgs b a := by
  refine ⟨?_, ?_, ?_⟩
  · have hfil : st.docs.filter (MessageModel.msgBetweenFilter a b) =
        st.docs.filter (MessageModel.msgBetweenFilter b a) :=
      List.filter_congr (fun x _ => by
        unfold MessageModel.msgBetweenFilter
        exact Bool.or_comm _ _)
    unfold MessageModel.getMessagesBetweenUsers
    rw [hfil]
  · have hs : ((st.docs.filter (MessageModel.msgBetweenFilter a b)).mergeSort
        MessageModel.tsLe).Pairwise (fun x y => MessageModel.tsLe x y = true) :=
      List.sorted_mergeSort tsLe_trans tsLe_total _
    unfold sortedByTimestamp MessageModel.getMessagesBetweenUsers
    rw [List.pairwise_map]
    refine List.Pairwise.sublist (List.take_sublist _ _) ?_
    refine hs.imp ?_
    intro x y hxy
    simpa [MessageModel.tsLe, MessageModel.transformDocument] using hxy
  · exact List.filter_congr (fun m _ => Bool.or_comm _ _)

/-- Claim C7 (code evaluated at the failing input): with the remote
unreachable (network error, timeout, or 5xx), `getUserGroups` and
`getGroupMessages` return `null` (`none`), not an empty collection —
their `catch { return [] }` is dead code because `request` never
throws. -/
theorem c7_group_lists_null_on_failure :
    ApiService.getUserGroups FetchOutcome.networkError = none ∧
    ApiService.getUserGroups FetchOutcome.timeout = none ∧
    ApiService.getUserGroups (FetchOutcome.httpResponse 500 []) = none ∧
    ApiService.getGroupMessages FetchOutcome.networkError = none := by
  decide

/-- Claim C8, counterexample: `PUT /messages/:id` happily moves a
message whose status is already `read` back to `sent`, answering 200 —
monotonicity of `sent → delivered → read` is not enforced. -/
theorem c8_status_regression_allowed :
    ((MessageController.updateMessageStatus (oidString 0) (some ("sent"))
        ⟨[⟨0, "a", "b", some ("hi"), none, none, none, none, none, MsgType.text, 5,
           MsgStatus.read, none⟩], 1⟩).1.1 = 200) ∧
    ((MessageController.updateMessageStatus (oidString 0) (some ("sent"))
        ⟨[⟨0, "a", "b", some ("hi"), none, none, none, none, none, MsgType.text, 5,
           MsgStatus.read, none⟩], 1⟩).2.docs.map (fun d => d.status) = [MsgStatus.sent]) := by
  decide

/-- Claim C9, amended: every record created by a successful
`POST /messages` (201) is stored with the payload field selected by its
type tag present and non-empty; however payload fields of **other**
types supplied in the same request are stored alongside it (see the
counterexample), so exclusivity of the payload field does not hold. -/
theorem c9_created_record_matches_tag (banned : String → Bool)
    (req : MessageController.SendReq) (st : MsgStore)
    (h : (MessageController.sendMessage banned req st).1.1 = 201) :
    ∃ ty, (MessageController.sendMessage banned req st).2.docs =
        st.docs ++ [MessageModel.createdDoc (MessageController.sendData req ty) st] ∧
      payloadMatchesTag (MessageModel.createdDoc (MessageController.sendData req ty) st) =
        true := by
  obtain ⟨ty, hty, hbad, heq⟩ := sendMessage_201 banned req st h
  refine ⟨ty, by rw [heq]; rfl, ?_⟩
  cases ty
  all_goals
    simp only [MessageController.sendContentBad] at hbad
    simp at hbad
    simp [payloadMatchesTag, MessageModel.createdDoc, MessageController.sendData, hbad]

/-- Claim C9, amended-theorem witness: a concrete valid text message
into the empty store. -/
theorem c9_created_record_matches_tag_witness :
    ∃ ty, (MessageController.sendMessage (fun _ => false) c5directReq ⟨[], 0⟩).2.docs =
        (⟨[], 0⟩ : MsgStore).docs ++
          [MessageModel.createdDoc (MessageController.sendData c5directReq ty) ⟨[], 0⟩] ∧
      payloadMatchesTag
        (MessageModel.createdDoc (MessageController.sendData c5directReq ty) ⟨[], 0⟩) = true :=
  c9_created_record_matches_tag (fun _ => false) c5directReq ⟨[], 0⟩ (by decide)

/-- Claim C10: deleting (soft-banning) or admin-banning a user whose
document exists but is already banned answers 404 — success is judged
by `modifiedCount === 1` and the no-op `$set { isBanned: true }`
modifies nothing — and all three stores are left unchanged: on the ban
route the message-deletion and group-removal cascade is skipped. -/
theorem c10_already_banned_returns_404 (ust : UserStore) (mst : MsgStore) (gst : GroupStore)
    (uid adminId : String) (d : UserDoc)
    (hfind : ust.docs.find? (fun x => oidString x.docId == uid) = some d)
    (hban : d.isBanned = true)
    (hadmin : ∃ au : User, UserModel.findUserById ust adminId = some au ∧ au.isAdmin = true) :
    UserController.deleteUser uid ust = (404, ust) ∧
    UserController.banUser uid adminId ust mst gst = (404, ust, mst, gst) := by
  have hdel : UserModel.deleteUser ust uid = (false, ust) := by
    unfold UserModel.deleteUser
    rw [hfind]
    simp [hban]
  constructor
  · unfold UserController.deleteUser
    rw [hdel]
  · obtain ⟨au, hau, hadm⟩ := hadmin
    unfold UserController.banUser
    rw [hau]
    simp [hadm, UserModel.banUser, hdel]

/-- Claim C10, witness: the concrete already-banned user of `c10ust`. -/
theorem c10_already_banned_returns_404_witness :
    UserController.deleteUser (oidString 0) c10ust = (404, c10ust) ∧
    UserController.banUser (oidString 0) (oidString 1) c10ust ⟨[], 0⟩ ⟨[], 0⟩ =
      (404, c10ust, ⟨[], 0⟩, ⟨[], 0⟩) :=
  c10_already_banned_returns_404 c10ust ⟨[], 0⟩ ⟨[], 0⟩ (oidString 0) (oidString 1)
    ⟨0, "bob", "bob@x.com", "http://a", "s", 0, false, true⟩ (by decide) (by decide)
    ⟨UserModel.transformDocument ⟨1, "adm", "admin0909@gmail.com", "http://a", "s", 0, false,
      false⟩, by decide, by decide⟩

/-- Claim C8, amended: `PUT /messages/:id` with any valid status value
on an existing message answers 200 and sets the stored status to the
requested value unconditionally (last writer wins); monotonicity of
`sent → delivered → read` is not enforced. -/
theorem c8_status_update_unconditional (st : MsgStore) (msgId sv : String) (s : MsgStatus)
    (d : MessageDoc)
    (hs : parseMsgStatus sv = some s)
    (hfind : st.docs.find? (fun x => oidString x.docId == msgId) = some d) :
    (MessageController.updateMessageStatus msgId (some sv) st).1.1 = 200 ∧
    (MessageController.updateMessageStatus msgId (some sv) st).1.2 =
      some (MessageModel.transformDocument { d with status := s }) ∧
    ((MessageController.updateMessageStatus msgId (some sv) st).2.docs.find?
        (fun x => oidString x.docId == msgId)) = some { d with status := s } := by
  have hsv : sv ≠ "" := by
    intro h
    rw [h] at hs
    have hnone : parseMsgStatus ("") = none := rfl
    rw [hnone] at hs
    exact Option.noConfusion hs
  have hmodel : MessageModel.updateMessageStatus st msgId s =
      (some (MessageModel.transformDocument { d with status := s }),
       { st with
         docs := updateFirst (fun x => oidString x.docId == msgId)
           (fun x => { x with status := s }) st.docs }) := by
    unfold MessageModel.updateMessageStatus
    rw [hfind]
  unfold MessageController.updateMessageStatus
  rw [if_neg (by simp [truthyS, hsv])]
  simp only [Option.getD_some, hs, hmodel]
  refine ⟨trivial, trivial, ?_⟩
  rw [find?_updateFirst_self (fun (x : MessageDoc) => oidString x.docId == msgId)
    (fun (x : MessageDoc) => { x with status := s }) (fun x => rfl), hfind]
  rfl

/-- Claim C8, witness: setting the concrete `read` message of `c8st` to
`delivered`. -/
theorem c8_status_update_unconditional_witness :
    (MessageController.updateMessageStatus (oidString 0) (some ("delivered")) c8st).1.1 = 200 ∧
    (MessageController.updateMessageStatus (oidString 0) (some ("delivered")) c8st).1.2 =
      some (MessageModel.transformDocument { c8doc with status := MsgStatus.delivered }) ∧
    ((MessageController.updateMessageStatus (oidString 0) (some ("delivered")) c8st).2.docs.find?
        (fun x => oidString x.docId == oidString 0)) =
      some { c8doc with status := MsgStatus.delivered } :=
  c8_status_update_unconditional c8st (oidString 0) ("delivered") MsgStatus.delivered c8doc
    (by decide) (by decide)

/-- Claim C9, counterexample: a `POST /messages` of type `text` that
also carries an `imageUrl` is accepted (201) and stores **both** payload
fields — exclusivity of the payload field is not enforced. -/
theorem c9_extra_payload_stored :
    ((MessageController.sendMessage (fun _ => false)
        ⟨some ("a"), some ("b"), some ("hi"), some ("pic"), none, none, none, none,
         some ("text"), some 5, none, none⟩ ⟨[], 0⟩).1.1 = 201) ∧
    ((MessageController.sendMessage (fun _ => false)
        ⟨some ("a"), some ("b"), some ("hi"), some ("pic"), none, none, none, none,
         some ("text"), some 5, none, none⟩ ⟨[], 0⟩).2.docs.map
        (fun d => (d.type, d.text, d.imageUrl))) =
      [(MsgType.text, some ("hi"), some ("pic"))] := by
  decide

end Chat
